import Mathlib

/-!
Verification of the observable behaviour of `src/main.py` of
martinremy/vercel-inception: a command-line question-answering loop with a
web-search tool. The Python source is embedded shallowly: the external
search backend (`ddgs.text`) and the model call (`generate_text`) are
injected as parameters; a Python exception derived from `Exception` is
carried as an `Except.error` with its message string; console output is
modelled as the list of strings passed to `print` (and the `input` prompt
string); wall-clock seconds are modelled as a whole number of centiseconds
(the embedding has no real time or floating point).
-/

namespace VercelInception

/-- A single search result record as returned by the search backend
(`ddgs.text`): a dictionary whose `title`, `body` and `href` keys may each
be absent (`result.get(key, default)` in src/main.py lines 41-43). -/
structure SearchRecord where
  title : Option String
  body : Option String
  href : Option String
deriving DecidableEq

/-- Behaviour of the search backend for one call, i.e. of
`list(ddgs.text(query, max_results=max_results))` at src/main.py line 33:
either the list of result records, or a raised `Exception` carried as its
message string `str(e)`. -/
abbrev SearchBackend := String → Nat → Except String (List SearchRecord)

/-- One formatted entry, src/main.py lines 44-46:
`f"{i}. {title}\n   {snippet}\n   URL: {url}"` where the fields were read
with the defaults of lines 41-43. -/
def formatEntry (i : Nat) (r : SearchRecord) : String :=
  toString i ++ ". " ++ r.title.getD "No title" ++ "\n   " ++
    r.body.getD "No description" ++ "\n   URL: " ++ r.href.getD "No URL"

/-- `web_search_execute` (src/main.py lines 20-51), with the DuckDuckGo
call injected as `backend`. The `try`/`except Exception` block catches a
backend failure and turns it into the `"Error performing web search: "`
string (line 51); an empty result list yields the fixed string of line 36;
otherwise the entries of `enumerate(results, 1)` are formatted and joined
with `"\n\n"` (lines 39-48). -/
def web_search_execute (backend : SearchBackend) (query : String)
    (max_results : Nat) : String :=
  match backend query max_results with
  | Except.error e => "Error performing web search: " ++ e
  | Except.ok results =>
    if results.isEmpty then
      "No search results found."
    else
      let formatted_results :=
        (List.enumFrom 1 results).map fun p => formatEntry p.1 p.2
      String.intercalate "\n\n" formatted_results

/-- A JSON value, for the tool parameter schema (insertion-ordered object
fields, as in a Python dict literal). -/
inductive Json where
  | str (s : String)
  | num (n : Int)
  | arr (elems : List Json)
  | obj (fields : List (String × Json))

/-- A tool declaration as passed to `tool(...)` (src/main.py lines 55-74);
the `execute` binding is the function `web_search_execute` above and is
kept outside the record so the record stays first-order. -/
structure ToolDescriptor where
  name : String
  description : String
  parameters : Json

/-- The `web_search` tool declaration, src/main.py lines 55-74, fields
copied verbatim (apostrophe written `\x27`). -/
def web_search : ToolDescriptor :=
  ⟨"web_search",
   "Search the web for current information using DuckDuckGo. Use this when you need up-to-date information or facts that you don\x27t already know.",
   Json.obj
     [("type", Json.str "object"),
      ("properties", Json.obj
        [("query", Json.obj
           [("type", Json.str "string"),
            ("description", Json.str "The search query to look up on the web")]),
         ("max_results", Json.obj
           [("type", Json.str "integer"),
            ("description", Json.str "Maximum number of results to return"),
            ("default", Json.num 5)])]),
      ("required", Json.arr [Json.str "query"])]⟩

/-- The parameter schema exactly as the spec states it in §6
("Tool invocation schema (bit-exact)"), written from the SPEC's words for
comparison with the declared tool. -/
def specClaimedSchema : Json :=
  Json.obj
    [("type", Json.str "object"),
     ("properties", Json.obj
       [("query", Json.obj [("type", Json.str "string")]),
        ("max_results", Json.obj
          [("type", Json.str "integer"), ("default", Json.num 5)])]),
     ("required", Json.arr [Json.str "query"])]

/-- The startup credential check, src/main.py lines 15-17: reads
`INCEPTION_API_KEY` from the environment and raises when it is absent. -/
def startupCheck (env : String → Option String) : Except String String :=
  match env "INCEPTION_API_KEY" with
  | none => Except.error "INCEPTION_API_KEY not found in environment variables"
  | some k => Except.ok k

/-- Python `str.strip()` (no argument): remove leading and trailing
whitespace characters. Modelled over the character list with
`Char.isWhitespace` (covers the ASCII whitespace of the strings this
program handles). -/
def pyStrip (s : String) : String :=
  String.mk
    (((s.data.dropWhile Char.isWhitespace).reverse.dropWhile
        Char.isWhitespace).reverse)

/-- Python `str.lower()`, modelled characterwise with `Char.toLower`
(covers the ASCII letters of the strings this program compares). -/
def pyLower (s : String) : String :=
  String.mk (s.data.map Char.toLower)

/-- The termination test of src/main.py line 122:
`question.lower() in ['exit', 'quit', '']`, applied to the already
stripped `question`. -/
def isExitCommand (question : String) : Bool :=
  ["exit", "quit", ""].contains (pyLower question)

/-- Result of `input("Your question: ")` for one loop iteration: a line of
text, or a `KeyboardInterrupt` raised while reading. -/
inductive ReadEvent where
  | line (s : String)
  | interrupt
deriving DecidableEq

/-- Behaviour of `generate_text` (src/main.py lines 130-135) for one call:
a result text, a raised `Exception` carried as its message, or a
`KeyboardInterrupt` raised during the call. -/
inductive GenEvent where
  | ok (text : String)
  | exn (msg : String)
  | interrupt
deriving DecidableEq

/-- One observed call to `generate_text`: the arguments of src/main.py
lines 130-135 (the model handle is fixed and omitted). -/
structure GenCall where
  prompt : String
  tools : List ToolDescriptor
  max_tokens : Nat

/-- What the loop does after one iteration: keep looping (`continue` or
fall-through), or `break` out of `while True`, after which `main` returns
and the process exits with status 0. -/
inductive NextState where
  | waiting
  | terminated
deriving DecidableEq

/-- Observable outcome of one loop iteration: the strings printed (the
`input` prompt first, then each `print` argument), the `generate_text`
calls made, and whether the loop continues. -/
structure StepResult where
  printed : List String
  calls : List GenCall
  next : NextState

/-- External events driving one loop iteration: what `input` returns, how
`generate_text` behaves if it is reached, and the measured wall-clock
duration of the call in centiseconds. -/
structure Event where
  read : ReadEvent
  gen : GenEvent
  elapsed : Nat

/-- `f"{elapsed_time:.2f}"` (src/main.py line 141) with the elapsed time
modelled as the already-rounded whole number of centiseconds: the whole
seconds, a dot, then exactly the tens and units centisecond digits. -/
def format2dp (centiseconds : Nat) : String :=
  toString (centiseconds / 100) ++ "." ++
    String.mk [Char.ofNat (48 + centiseconds / 10 % 10),
               Char.ofNat (48 + centiseconds % 10)]

/-- One iteration of the `while True` loop, src/main.py lines 118-148.
The `try` block spans the whole body, so a `KeyboardInterrupt` raised
anywhere in it (at `input` or inside `generate_text`) reaches the
dedicated `except KeyboardInterrupt` handler of lines 143-145, which
prints `"\n\nGoodbye!"` and breaks; any other `Exception` reaches the
handler of lines 146-148, which prints `f"\nError: {e}\n"` and continues. -/
def loopStep (ev : Event) : StepResult :=
  match ev.read with
  | ReadEvent.interrupt => ⟨["Your question: ", "\n\nGoodbye!"], [], NextState.terminated⟩
  | ReadEvent.line s =>
    let question := pyStrip s
    if isExitCommand question then
      ⟨["Your question: ", "Goodbye!"], [], NextState.terminated⟩
    else
      let call : GenCall := ⟨question, [web_search], 1000⟩
      match ev.gen with
      | GenEvent.ok text =>
        ⟨["Your question: ", "\nAnswer: " ++ text,
          "(Response time: " ++ format2dp ev.elapsed ++ "s)\n"],
         [call], NextState.waiting⟩
      | GenEvent.exn msg =>
        ⟨["Your question: ", "\nError: " ++ msg ++ "\n"], [call], NextState.waiting⟩
      | GenEvent.interrupt =>
        ⟨["Your question: ", "\n\nGoodbye!"], [call], NextState.terminated⟩

/-- The loop run over a finite sequence of external events; it stops at
the first iteration whose `next` is `terminated` (the `break`), and runs
out of supplied events otherwise (the real loop would then block on
`input`). -/
def runLoop : List Event → List StepResult
  | [] => []
  | ev :: rest =>
    let r := loopStep ev
    match r.next with
    | NextState.terminated => [r]
    | NextState.waiting => r :: runLoop rest

/-- The two welcome lines printed by `main` before the loop
(src/main.py lines 115-116), apostrophes written `\x27`. -/
def welcomeLines : List String :=
  ["Welcome! Ask me questions (type \x27exit\x27 or \x27quit\x27 to stop).\n",
   "I can search the web for current information to answer your questions.\n"]

/-- A model-setup action performed by `main` before the loop. The
constructors cover setting an environment variable, `openai(model_id)`,
and `InceptionModel(api_key, model_id)` (the latter never occurs in
`mainSetup`). -/
inductive SetupAction where
  | setEnv (varName value : String)
  | openaiModel (model_id : String)
  | inceptionModelNew (key model_id : String)
deriving DecidableEq

/-- The model-handle construction in `main`, src/main.py lines 108-113:
set `OPENAI_API_KEY` and `OPENAI_BASE_URL`, then call `openai("mercury")`. -/
def mainSetup (api_key : String) : List SetupAction :=
  [SetupAction.setEnv "OPENAI_API_KEY" api_key,
   SetupAction.setEnv "OPENAI_BASE_URL" "https://api.inceptionlabs.ai/v1",
   SetupAction.openaiModel "mercury"]

/-- The `InceptionModel` wrapper class (src/main.py lines 78-100): its
`__init__` stores the key, the model id and the fixed base URL. It is
declared in the module but `mainSetup` never constructs it. -/
structure InceptionModel where
  api_key : String
  model_id : String
  base_url : String
deriving DecidableEq

/-- `InceptionModel.__init__` (src/main.py lines 83-86). -/
def InceptionModel.init (key model_id : String) : InceptionModel :=
  ⟨key, model_id, "https://api.inceptionlabs.ai/v1"⟩

/-- Whole-process observable behaviour: stdout strings and exit status
(`none` while the process is still blocked waiting for further input).
The module-level credential check (src/main.py lines 15-17) runs before
`main` is ever entered; its uncaught exception terminates the process with
status 1 having printed nothing to stdout. Otherwise `main` prints the
welcome lines and runs the loop; `break` makes `main` return, exiting with
status 0. -/
def programRun (env : String → Option String) (events : List Event) :
    List String × Option Nat :=
  match startupCheck env with
  | Except.error _ => ([], some 1)
  | Except.ok _ =>
    let steps := runLoop events
    let out := welcomeLines ++ (steps.map StepResult.printed).flatten
    let code :=
      match steps.getLast? with
      | some r => if r.next = NextState.terminated then some 0 else none
      | none => none
    (out, code)

/-! ## Helper lemmas -/

/-- The entry at index `k` of the formatted-entry list carries index
`i + k` and the `k`-th record. -/
lemma getD_map_formatEntry :
    ∀ (l : List SearchRecord) (i k : Nat), k < l.length →
      (((List.enumFrom i l).map fun p => formatEntry p.1 p.2).getD k "") =
        formatEntry (i + k) (l.getD k ⟨none, none, none⟩) := by
  intro l
  induction l with
  | nil => intro i k h; simp at h
  | cons a t ih =>
    intro i k h
    cases k with
    | zero => simp [List.enumFrom]
    | succ k =>
      have hk : k < t.length := by simpa using Nat.lt_of_succ_lt_succ h
      have := ih (i + 1) k hk
      simp only [List.enumFrom, List.map, List.getD_cons_succ]
      rw [this, Nat.add_assoc, Nat.add_comm 1 k]

/-! ## Claims -/

/-- C1: the Search Adapter (`web_search_execute`) never raises an
exception to its caller: for every query, result budget and backend, the
function returns normally with a string (it is a total function of the
embedding), and when the backend raises, the returned string is exactly
`"Error performing web search: "` followed by the failure message — in
particular it begins with that prefix. -/
theorem C1_search_adapter_never_raises (backend : SearchBackend)
    (query : String) (max_results : Nat) (msg : String)
    (h : backend query max_results = Except.error msg) :
    web_search_execute backend query max_results =
      "Error performing web search: " ++ msg := by
  simp [web_search_execute, h]

/-- Witness for C1 at a concrete failing backend. -/
theorem C1_search_adapter_never_raises_witness :
    web_search_execute (fun _ _ => Except.error "boom") "anything" 5 =
      "Error performing web search: " ++ "boom" :=
  C1_search_adapter_never_raises (fun _ _ => Except.error "boom")
    "anything" 5 "boom" rfl

/-- C2: for every result list the backend returns: if it is empty the
adapter returns exactly `"No search results found."`; if it has length
`N ≥ 1` the report is the `"\n\n"`-join (entries separated by a blank
line) of exactly `N` entries, where the `k`-th entry (0-based) is numbered
`k + 1` and spans three lines — index and title, snippet, URL line — with
missing fields replaced by `"No title"`, `"No description"`, `"No URL"`. -/
theorem C2_formatted_report (backend : SearchBackend) (query : String)
    (max_results : Nat) (results : List SearchRecord)
    (h : backend query max_results = Except.ok results) :
    (results = [] →
        web_search_execute backend query max_results =
          "No search results found.") ∧
    (results ≠ [] →
        ∃ entries : List String,
          entries.length = results.length ∧
          web_search_execute backend query max_results =
            String.intercalate "\n\n" entries ∧
          ∀ k, k < results.length →
            entries.getD k "" =
              toString (k + 1) ++ ". " ++
                (results.getD k ⟨none, none, none⟩).title.getD "No title" ++
                "\n   " ++
                (results.getD k ⟨none, none, none⟩).body.getD "No description" ++
                "\n   URL: " ++
                (results.getD k ⟨none, none, none⟩).href.getD "No URL") := by
  constructor
  · intro he
    subst he
    simp [web_search_execute, h]
  · intro hne
    refine ⟨(List.enumFrom 1 results).map fun p => formatEntry p.1 p.2,
      ?_, ?_, ?_⟩
    · simp
    · simp [web_search_execute, h, List.isEmpty_iff, hne]
    · intro k hk
      rw [getD_map_formatEntry results 1 k hk, Nat.add_comm 1 k]
      rfl

/-- Witness for C2 at a backend returning one full and one empty record. -/
theorem C2_formatted_report_witness :
    (([⟨some "T1", some "B1", some "U1"⟩,
       (⟨none, none, none⟩ : SearchRecord)] : List SearchRecord) = [] →
      web_search_execute
        (fun _ _ => Except.ok [⟨some "T1", some "B1", some "U1"⟩,
          ⟨none, none, none⟩]) "q" 5 = "No search results found.") ∧
    (([⟨some "T1", some "B1", some "U1"⟩,
       (⟨none, none, none⟩ : SearchRecord)] : List SearchRecord) ≠ [] →
      ∃ entries : List String,
        entries.length =
          ([⟨some "T1", some "B1", some "U1"⟩,
            (⟨none, none, none⟩ : SearchRecord)] : List SearchRecord).length ∧
        web_search_execute
          (fun _ _ => Except.ok [⟨some "T1", some "B1", some "U1"⟩,
            ⟨none, none, none⟩]) "q" 5 =
          String.intercalate "\n\n" entries ∧
        ∀ k,
          k < ([⟨some "T1", some "B1", some "U1"⟩,
                (⟨none, none, none⟩ : SearchRecord)] : List SearchRecord).length →
          entries.getD k "" =
            toString (k + 1) ++ ". " ++
              (([⟨some "T1", some "B1", some "U1"⟩,
                 (⟨none, none, none⟩ : SearchRecord)] :
                  List SearchRecord).getD k
                ⟨none, none, none⟩).title.getD "No title" ++
              "\n   " ++
              (([⟨some "T1", some "B1", some "U1"⟩,
                 (⟨none, none, none⟩ : SearchRecord)] :
                  List SearchRecord).getD k
                ⟨none, none, none⟩).body.getD "No description" ++
              "\n   URL: " ++
              (([⟨some "T1", some "B1", some "U1"⟩,
                 (⟨none, none, none⟩ : SearchRecord)] :
                  List SearchRecord).getD k
                ⟨none, none, none⟩).href.getD "No URL") :=
  C2_formatted_report
    (fun _ _ => Except.ok [⟨some "T1", some "B1", some "U1"⟩,
      ⟨none, none, none⟩]) "q" 5
    [⟨some "T1", some "B1", some "U1"⟩, ⟨none, none, none⟩] rfl

/-- C3: the Agent Loop terminates — printing a farewell and making the
process exit with status 0 — at the input stage (no `generate_text` call)
exactly when the read is interrupted or the stripped input is empty or
case-insensitively `"exit"`/`"quit"`; every other non-empty input proceeds
to PROCESSING (a `generate_text` call is made); and the five example
inputs `""`, `"exit"`, `"EXIT"`, `"quit"`, `"Quit"` all pass the
termination test. -/
theorem C3_agent_loop_termination (ev : Event) :
    (((loopStep ev).next = NextState.terminated ∧ (loopStep ev).calls = []) ↔
        ev.read = ReadEvent.interrupt ∨
          ∃ s, ev.read = ReadEvent.line s ∧
            isExitCommand (pyStrip s) = true) ∧
    ((loopStep ev).next = NextState.terminated →
        ("Goodbye!" ∈ (loopStep ev).printed ∨
          "\n\nGoodbye!" ∈ (loopStep ev).printed) ∧
        ∀ env k evs, env "INCEPTION_API_KEY" = some k →
          (programRun env (ev :: evs)).2 = some 0) ∧
    (∀ s, ev.read = ReadEvent.line s → isExitCommand (pyStrip s) = false →
        (loopStep ev).calls ≠ []) ∧
    (isExitCommand (pyStrip "") = true ∧ isExitCommand (pyStrip "exit") = true ∧
      isExitCommand (pyStrip "EXIT") = true ∧
      isExitCommand (pyStrip "quit") = true ∧
      isExitCommand (pyStrip "Quit") = true) := by
  obtain ⟨r, g, e⟩ := ev
  refine ⟨?_, ?_, ?_, by decide⟩
  · cases r with
    | interrupt => simp [loopStep]
    | line s =>
      by_cases hx : isExitCommand (pyStrip s) = true
      · simp [loopStep, hx]
      · cases g <;> simp [loopStep, hx]
  · intro ht
    constructor
    · cases r with
      | interrupt => simp [loopStep]
      | line s =>
        by_cases hx : isExitCommand (pyStrip s) = true
        · simp [loopStep, hx]
        · cases g <;> simp_all [loopStep, hx]
    · intro env k evs hk
      have hs : startupCheck env = Except.ok k := by simp [startupCheck, hk]
      simp [programRun, hs, runLoop, ht]
  · intro s hs hx
    simp only [Event.read] at hs
    subst hs
    cases g <;> simp [loopStep, hx]

/-- Witness for C3 at input `"EXIT"`. -/
theorem C3_agent_loop_termination_witness :
    (loopStep ⟨ReadEvent.line "EXIT", GenEvent.ok "hi", 42⟩).next =
      NextState.terminated ∧
    (loopStep ⟨ReadEvent.line "EXIT", GenEvent.ok "hi", 42⟩).calls = [] :=
  (C3_agent_loop_termination
    ⟨ReadEvent.line "EXIT", GenEvent.ok "hi", 42⟩).1.mpr
    (Or.inr ⟨"EXIT", rfl, by decide⟩)

/-- C4: an `Exception` raised by `generate_text` is caught, an
`"Error: <message>"` line is printed (with the source's surrounding
newlines), and the loop goes back to waiting without terminating, so a
subsequent question is accepted and answered normally. -/
theorem C4_model_error_is_recoverable (q1 q2 msg text : String) (e1 e2 : Nat)
    (h1 : isExitCommand (pyStrip q1) = false)
    (h2 : isExitCommand (pyStrip q2) = false) :
    runLoop [⟨ReadEvent.line q1, GenEvent.exn msg, e1⟩,
             ⟨ReadEvent.line q2, GenEvent.ok text, e2⟩] =
      [⟨["Your question: ", "\nError: " ++ msg ++ "\n"],
        [⟨pyStrip q1, [web_search], 1000⟩], NextState.waiting⟩,
       ⟨["Your question: ", "\nAnswer: " ++ text,
         "(Response time: " ++ format2dp e2 ++ "s)\n"],
        [⟨pyStrip q2, [web_search], 1000⟩], NextState.waiting⟩] := by
  simp [runLoop, loopStep, h1, h2]

/-- Witness for C4: a failing first question, a successful second one. -/
theorem C4_model_error_is_recoverable_witness :
    runLoop [⟨ReadEvent.line "first", GenEvent.exn "boom", 3⟩,
             ⟨ReadEvent.line "second", GenEvent.ok "fine", 7⟩] =
      [⟨["Your question: ", "\nError: " ++ "boom" ++ "\n"],
        [⟨pyStrip "first", [web_search], 1000⟩], NextState.waiting⟩,
       ⟨["Your question: ", "\nAnswer: " ++ "fine",
         "(Response time: " ++ format2dp 7 ++ "s)\n"],
        [⟨pyStrip "second", [web_search], 1000⟩], NextState.waiting⟩] :=
  C4_model_error_is_recoverable "first" "second" "boom" "fine" 3 7
    (by decide) (by decide)

/-- C5: with `INCEPTION_API_KEY` unset the process exits with status 1
having printed nothing (so before any prompt); with it set, the startup
check succeeds and `main` proceeds to print the welcome lines and run the
loop. -/
theorem C5_missing_credential_fatal (env : String → Option String)
    (events : List Event) :
    (env "INCEPTION_API_KEY" = none →
        programRun env events = ([], some 1)) ∧
    (∀ k, env "INCEPTION_API_KEY" = some k →
        startupCheck env = Except.ok k ∧
        (programRun env events).1 =
          welcomeLines ++
            ((runLoop events).map StepResult.printed).flatten) := by
  constructor
  · intro hnone
    simp [programRun, startupCheck, hnone]
  · intro k hk
    have hs : startupCheck env = Except.ok k := by simp [startupCheck, hk]
    exact ⟨hs, by simp [programRun, hs]⟩

/-- Witness for C5 with an empty environment. -/
theorem C5_missing_credential_fatal_witness :
    programRun (fun _ => none) [] = ([], some 1) :=
  (C5_missing_credential_fatal (fun _ => none) []).1 rfl

/-- C6, counterexample: the parameter schema actually declared for the
`web_search` tool is NOT equal to the schema the claim states, because the
source adds a `description` string inside each property. -/
theorem C6_schema_counterexample :
    web_search.parameters ≠ specClaimedSchema := by
  simp [web_search, specClaimedSchema]

/-- The parameter schema as the counterexample forces the claim to be
amended: the spec's §6 schema with the two per-property `description`
strings the source declares (src/main.py lines 58-72). -/
def amendedSchema : Json :=
  Json.obj
    [("type", Json.str "object"),
     ("properties", Json.obj
       [("query", Json.obj
          [("type", Json.str "string"),
           ("description", Json.str "The search query to look up on the web")]),
        ("max_results", Json.obj
          [("type", Json.str "integer"),
           ("description", Json.str "Maximum number of results to return"),
           ("default", Json.num 5)])]),
     ("required", Json.arr [Json.str "query"])]

/-- C6, amended: the declared parameter schema is bit-exact equal to the
claimed schema extended with the per-property `description` fields. -/
theorem C6_schema_amended : web_search.parameters = amendedSchema := rfl

/-- C7: a non-terminating input line is stripped and becomes the prompt of
the single `generate_text` call, together with the one `web_search` tool
and `max_tokens = 1000`; on success the loop prints
`"\nAnswer: <text>"` then `"(Response time: <seconds>s)\n"`, where the
elapsed-time string is the whole seconds, a dot, and exactly two decimal
digits. -/
theorem C7_processing_invocation (s text : String) (e : Nat)
    (h : isExitCommand (pyStrip s) = false) :
    loopStep ⟨ReadEvent.line s, GenEvent.ok text, e⟩ =
      ⟨["Your question: ", "\nAnswer: " ++ text,
        "(Response time: " ++ format2dp e ++ "s)\n"],
       [⟨pyStrip s, [web_search], 1000⟩], NextState.waiting⟩ ∧
    ∃ d1 d2 : Char,
      format2dp e = toString (e / 100) ++ "." ++ String.mk [d1, d2] := by
  constructor
  · simp [loopStep, h]
  · exact ⟨_, _, rfl⟩

/-- Witness for C7: the spec §8 end-to-end scenario, answer `"Paris"` in
0.42 seconds. -/
theorem C7_processing_invocation_witness :
    loopStep ⟨ReadEvent.line "What is the capital of France?",
      GenEvent.ok "Paris", 42⟩ =
      ⟨["Your question: ", "\nAnswer: " ++ "Paris",
        "(Response time: " ++ format2dp 42 ++ "s)\n"],
       [⟨pyStrip "What is the capital of France?", [web_search], 1000⟩],
       NextState.waiting⟩ ∧
    ∃ d1 d2 : Char,
      format2dp 42 = toString (42 / 100) ++ "." ++ String.mk [d1, d2] :=
  C7_processing_invocation "What is the capital of France?" "Paris" 42
    (by decide)

/-- C8, counterexample: an interrupt arriving during PROCESSING (inside
`generate_text`) does NOT merely end the turn: the step terminates the
loop, the run accepts no further input (the second event is never
processed), and the farewell — not an error line — is printed. -/
theorem C8_interrupt_counterexample :
    (loopStep ⟨ReadEvent.line "question", GenEvent.interrupt, 0⟩).next =
      NextState.terminated ∧
    (runLoop [⟨ReadEvent.line "question", GenEvent.interrupt, 0⟩,
              ⟨ReadEvent.line "again", GenEvent.ok "hi", 0⟩]).length = 1 ∧
    (loopStep ⟨ReadEvent.line "question", GenEvent.interrupt, 0⟩).printed =
      ["Your question: ", "\n\nGoodbye!"] := by
  refine ⟨by decide, ?_, by decide⟩
  have h1 : isExitCommand (pyStrip "question") = false := by decide
  simp [runLoop, loopStep, h1]

/-- C8, amended: an interrupt during PROCESSING is caught by the loop's
dedicated `KeyboardInterrupt` handler (src/main.py lines 143-145): the
farewell is printed and the loop breaks — exactly as for an interrupt at
the prompt — rather than falling through to the generic per-question
error handler. -/
theorem C8_interrupt_during_processing (s : String) (e : Nat)
    (h : isExitCommand (pyStrip s) = false) :
    loopStep ⟨ReadEvent.line s, GenEvent.interrupt, e⟩ =
      ⟨["Your question: ", "\n\nGoodbye!"],
       [⟨pyStrip s, [web_search], 1000⟩], NextState.terminated⟩ ∧
    ∀ rest, runLoop (⟨ReadEvent.line s, GenEvent.interrupt, e⟩ :: rest) =
      [loopStep ⟨ReadEvent.line s, GenEvent.interrupt, e⟩] := by
  constructor
  · simp [loopStep, h]
  · intro rest
    simp [runLoop, loopStep, h]

/-- Witness for C8's amended statement at a concrete question. -/
theorem C8_interrupt_during_processing_witness :
    loopStep ⟨ReadEvent.line "question", GenEvent.interrupt, 0⟩ =
      ⟨["Your question: ", "\n\nGoodbye!"],
       [⟨pyStrip "question", [web_search], 1000⟩], NextState.terminated⟩ :=
  (C8_interrupt_during_processing "question" 0 (by decide)).1

/-- C9: the termination test is applied to the stripped, lowercased input:
a line terminates the loop with no `generate_text` call exactly when its
stripped lowercased form is `"exit"`, `"quit"` or empty; in particular
`"   "`, `"  Quit  "` and `" EXIT"` pass the test while `"exit now"`,
which merely contains such a word, does not (and so proceeds to
PROCESSING). -/
theorem C9_termination_on_stripped_lowercased (ev : Event) (s : String)
    (h : ev.read = ReadEvent.line s) :
    ((loopStep ev).calls = [] ↔ isExitCommand (pyStrip s) = true) ∧
    (isExitCommand (pyStrip s) = true →
        (loopStep ev).next = NextState.terminated) ∧
    isExitCommand (pyStrip "   ") = true ∧
    isExitCommand (pyStrip "  Quit  ") = true ∧
    isExitCommand (pyStrip " EXIT") = true ∧
    isExitCommand (pyStrip "exit now") = false := by
  obtain ⟨r, g, e⟩ := ev
  simp only [Event.read] at h
  subst h
  refine ⟨?_, ?_, by decide, by decide, by decide, by decide⟩
  · by_cases hx : isExitCommand (pyStrip s) = true
    · simp [loopStep, hx]
    · cases g <;> simp [loopStep, hx]
  · intro hx
    simp [loopStep, hx]

/-- Witness for C9 at input `"  Quit  "`. -/
theorem C9_termination_on_stripped_lowercased_witness :
    (loopStep ⟨ReadEvent.line "  Quit  ", GenEvent.ok "x", 0⟩).next =
      NextState.terminated :=
  (C9_termination_on_stripped_lowercased
    ⟨ReadEvent.line "  Quit  ", GenEvent.ok "x", 0⟩ "  Quit  " rfl).2.1
    (by decide)

/-- C10: the model-handle setup performed by `main` consists exactly of
setting `OPENAI_API_KEY` and `OPENAI_BASE_URL` and calling
`openai("mercury")`; no step constructs an `InceptionModel`, so the
wrapper class has no effect on observable behaviour. -/
theorem C10_inception_model_unused (api_key : String) :
    mainSetup api_key =
      [SetupAction.setEnv "OPENAI_API_KEY" api_key,
       SetupAction.setEnv "OPENAI_BASE_URL" "https://api.inceptionlabs.ai/v1",
       SetupAction.openaiModel "mercury"] ∧
    ∀ a ∈ mainSetup api_key, ∀ k m,
      a ≠ SetupAction.inceptionModelNew k m := by
  refine ⟨rfl, ?_⟩
  intro a ha k m
  simp only [mainSetup, List.mem_cons, List.mem_singleton] at ha
  rcases ha with h | h | h | h <;> first | subst h <;> simp | simp at h

/-- Witness for C10: the third setup action is not an `InceptionModel`
construction. -/
theorem C10_inception_model_unused_witness :
    SetupAction.openaiModel "mercury" ≠
      SetupAction.inceptionModelNew "k" "mercury" :=
  (C10_inception_model_unused "k").2 (SetupAction.openaiModel "mercury")
    (by simp [mainSetup]) "k" "mercury"

end VercelInception
